import Mathlib

/-!
Verification of the cart / order / stock core of the Social repository.

The definitions below are a shallow embedding of the request handlers in
src/backend/controllers/news.js (placeOrder, cancelOrder, updateOrderStatus,
the order controller half of the file) and of the cart controller
(addToCart, updateCartItem, removeFromCart, clearCart).  The Prisma store
is modelled as an explicit record of lists; each handler is a function from
the store to a new store together with an Except-style result.  JavaScript
numbers that hold quantities are modelled as integers, monetary values are
modelled as rationals.
-/

namespace Social

/-- The order lifecycle states accepted by updateOrderStatus
(news.js lines 580-582). -/
inductive OrderStatus
  | PENDING
  | CONFIRMED
  | PROCESSING
  | SHIPPED
  | DELIVERED
  | CANCELLED
  | REFUNDED
deriving DecidableEq, Repr

/-- A catalog product: only the fields this core reads or writes. -/
structure Product where
  id : Nat
  price : ℚ
  stock : ℤ
  isActive : Bool
deriving DecidableEq, Repr

/-- One cart line (Prisma model CartItem). -/
structure CartItem where
  id : Nat
  productId : Nat
  quantity : ℤ
  customDesign : Option String
deriving DecidableEq, Repr

/-- A customer cart (Prisma model Cart); one per user. -/
structure Cart where
  id : Nat
  userId : Nat
  items : List CartItem
deriving DecidableEq, Repr

/-- A frozen order line (Prisma model OrderItem). -/
structure OrderItem where
  productId : Nat
  quantity : ℤ
  price : ℚ
  customDesign : Option String
deriving DecidableEq, Repr

/-- An order (Prisma model Order). -/
structure Order where
  id : Nat
  userId : Nat
  total : ℚ
  shippingAddress : String
  paymentMethod : String
  status : OrderStatus
  paymentStatus : String
  items : List OrderItem
deriving DecidableEq, Repr

/-- The durable store: products, carts and orders, plus a counter used to
hand out fresh record identifiers. -/
structure DB where
  products : List Product
  carts : List Cart
  orders : List Order
  nextId : Nat
deriving DecidableEq, Repr

/-- Lookup of a product by id (prisma.product.findUnique). -/
def findProduct (db : DB) (productId : Nat) : Option Product :=
  db.products.find? (fun p => p.id == productId)

/-- The stock of a product by id, none when the product is absent. -/
def stockOf (ps : List Product) (productId : Nat) : Option ℤ :=
  (ps.find? (fun p => p.id == productId)).map Product.stock

/-- prisma.product.update with a stock increment or decrement of d on the
product with the given id. -/
def adjustStock (ps : List Product) (productId : Nat) (d : ℤ) : List Product :=
  ps.map (fun p => if p.id == productId then { p with stock := p.stock + d } else p)

/-- A sequence of stock adjustments, one per (productId, delta) pair. -/
def adjustMany (ps : List Product) (l : List (Nat × ℤ)) : List Product :=
  l.foldl (fun a x => adjustStock a x.1 x.2) ps

/-- A sequence of stock adjustments where each prisma update throws when the
product is missing, aborting the enclosing transaction (result none). -/
def adjustManyChecked (ps : List Product) : List (Nat × ℤ) → Option (List Product)
  | [] => some ps
  | x :: rest =>
    if (stockOf ps x.1).isSome then adjustManyChecked (adjustStock ps x.1 x.2) rest
    else none

/-- Total delta a pair list applies to one product. -/
def qtySum (l : List (Nat × ℤ)) (productId : Nat) : ℤ :=
  ((l.filter (fun x => x.1 == productId)).map (fun x => x.2)).sum

/-- The (productId, quantity) pairs of a list of cart lines. -/
def cartPairs (items : List CartItem) : List (Nat × ℤ) :=
  items.map (fun it => (it.productId, it.quantity))

/-- The (productId, negated quantity) pairs used by the stock decrement loop
of placeOrder (news.js lines 372-378). -/
def decPairs (items : List CartItem) : List (Nat × ℤ) :=
  items.map (fun it => (it.productId, -it.quantity))

/-- The (productId, quantity) pairs used by the stock restore loop of
cancelOrder (news.js lines 503-509). -/
def incPairs (items : List OrderItem) : List (Nat × ℤ) :=
  items.map (fun it => (it.productId, it.quantity))

/-- The stock decrement loop of placeOrder (news.js lines 372-378). -/
def decrementStocks (ps : List Product) (items : List CartItem) : List Product :=
  adjustMany ps (decPairs items)

/-- Math.round(total * 100) / 100 (news.js line 350), on rationals. -/
def round2 (q : ℚ) : ℚ := (⌊q * 100 + 1 / 2⌋ : ℚ) / 100

/-- The unit price the included product relation exposes for a cart line. -/
def priceOf (db : DB) (productId : Nat) : ℚ :=
  ((findProduct db productId).map Product.price).getD 0

/-- cart.items.reduce((sum, item) => sum + item.product.price * item.quantity, 0)
(news.js lines 339-342). -/
def cartTotal (db : DB) (items : List CartItem) : ℚ :=
  items.foldl (fun s it => s + priceOf db it.productId * (it.quantity : ℚ)) 0

/-- The frozen order line built from a cart line (news.js lines 355-360):
product id, quantity, price copied from the included product, customization. -/
def toOrderItem (db : DB) (it : CartItem) : OrderItem :=
  { productId := it.productId
  , quantity := it.quantity
  , price := priceOf db it.productId
  , customDesign := it.customDesign }

/-- Errors a placeOrder request can answer with. -/
inductive PlaceError
  | missingAddress
  | emptyCart
  | productUnavailable (productId : Nat)
  | insufficientStock (productId : Nat) (available : ℤ)
  | internalError
deriving DecidableEq, Repr

/-- The per-line validation loop of placeOrder (news.js lines 323-336): the
first line whose included product is inactive yields ProductUnavailable, the
first line whose quantity exceeds the snapshot stock yields
InsufficientStock; the loop scans the lines in order. -/
def firstValidationError (db : DB) : List CartItem → Option PlaceError
  | [] => none
  | it :: rest =>
    match findProduct db it.productId with
    | none => some PlaceError.internalError
    | some p =>
      if p.isActive = false then some (PlaceError.productUnavailable p.id)
      else if p.stock < it.quantity then some (PlaceError.insufficientStock p.id p.stock)
      else firstValidationError db rest

/-- Modelled from the spec: the initial lifecycle status of a freshly created
order is supplied by the Prisma schema default, which is not under src; the
spec (section 4.2, step 4) fixes it to PENDING. -/
def defaultOrderStatus : OrderStatus := OrderStatus.PENDING

/-- Modelled from the spec: the initial payment status of a freshly created
order is supplied by the Prisma schema default, which is not under src. -/
def defaultPaymentStatus : String := "PENDING"

/-- paymentMethod || cod (news.js line 352). -/
def defaultPaymentMethod : String := "cod"

/-- Empty the item list of the cart with the given id
(tx.cartItem.deleteMany, news.js line 381). -/
def clearCartItems (carts : List Cart) (cartId : Nat) : List Cart :=
  carts.map (fun c => if c.id == cartId then { c with items := [] } else c)

/-- The pre-transaction phase of placeOrder (news.js lines 302-336):
read the cart with its items and included products, reject an empty cart,
and run the per-line validation loop against that snapshot. -/
def placeOrderValidate (db : DB) (userId : Nat) : Except PlaceError Cart :=
  match db.carts.find? (fun c => c.userId == userId) with
  | none => Except.error PlaceError.emptyCart
  | some cart =>
    if cart.items.isEmpty then Except.error PlaceError.emptyCart
    else
      match firstValidationError db cart.items with
      | some e => Except.error e
      | none => Except.ok cart

/-- The prisma.$transaction body of placeOrder (news.js lines 345-384), run
against the current store cur.  Prices and the total come from the
pre-transaction snapshot snap (the included product of each cart line);
the stock decrements and the cart clearing mutate the current store. -/
def placeOrderTx (cur snap : DB) (userId : Nat) (addr paymentMethod : String)
    (cart : Cart) : DB × Order :=
  let order : Order :=
    { id := cur.nextId
    , userId := userId
    , total := round2 (cartTotal snap cart.items)
    , shippingAddress := addr
    , paymentMethod := paymentMethod
    , status := defaultOrderStatus
    , paymentStatus := defaultPaymentStatus
    , items := cart.items.map (toOrderItem snap) }
  ( { cur with
        orders := cur.orders ++ [order]
      , products := decrementStocks cur.products cart.items
      , carts := clearCartItems cur.carts cart.id
      , nextId := cur.nextId + 1 }
  , order )

/-- placeOrder (news.js lines 300-394): require a shipping address, validate
the cart against the snapshot, then run the transaction body. -/
def placeOrder (db : DB) (userId : Nat) (shippingAddress : Option String)
    (paymentMethod : Option String) : Except PlaceError (DB × Order) :=
  match shippingAddress with
  | none => Except.error PlaceError.missingAddress
  | some addr =>
    match placeOrderValidate db userId with
    | Except.error e => Except.error e
    | Except.ok cart =>
      Except.ok (placeOrderTx db db userId addr (paymentMethod.getD defaultPaymentMethod) cart)

/-- placeOrder together with the store the request leaves behind: an error
reply performs no mutation (every error return in news.js lines 304-336
happens before the transaction, and a failed transaction rolls back). -/
def placeOrderRun (db : DB) (userId : Nat) (shippingAddress : Option String)
    (paymentMethod : Option String) : DB × Except PlaceError Order :=
  match placeOrder db userId shippingAddress paymentMethod with
  | Except.error e => (db, Except.error e)
  | Except.ok x => (x.1, Except.ok x.2)

/-- Whether an Except result is a success. -/
def isOkE {ε α : Type} (e : Except ε α) : Bool :=
  match e with
  | Except.ok _ => true
  | Except.error _ => false

/-- Decidable equality on Except results. -/
def exceptDecEq {ε α : Type} [DecidableEq ε] [DecidableEq α] :
    (a b : Except ε α) → Decidable (a = b)
  | Except.ok x, Except.ok y =>
    match decEq x y with
    | isTrue h => isTrue (by rw [h])
    | isFalse h => isFalse (by intro hh; injection hh; contradiction)
  | Except.ok _, Except.error _ => isFalse (by intro hh; injection hh)
  | Except.error _, Except.ok _ => isFalse (by intro hh; injection hh)
  | Except.error x, Except.error y =>
    match decEq x y with
    | isTrue h => isTrue (by rw [h])
    | isFalse h => isFalse (by intro hh; injection hh; contradiction)

instance {ε α : Type} [DecidableEq ε] [DecidableEq α] : DecidableEq (Except ε α) :=
  exceptDecEq

/-- Errors a cart request can answer with (cart controller). -/
inductive CartError
  | productNotFound
  | insufficientStock (available : ℤ)
  | cartNotFound
  | itemNotFound
  | invalidQuantity
deriving DecidableEq, Repr

/-- addToCart (cart controller lines 203-270): reject a missing or inactive
product, reject a requested quantity above the snapshot stock, make sure the
cart exists, merge into an existing uncustomized line for the same product
when no customization is given (rejecting when the merged quantity exceeds
stock), otherwise append a fresh line. -/
def addToCart (db : DB) (userId productId : Nat) (quantity : ℤ)
    (customDesign : Option String) : Except CartError (DB × CartItem) :=
  match findProduct db productId with
  | none => Except.error CartError.productNotFound
  | some product =>
    if product.isActive = false then Except.error CartError.productNotFound
    else if product.stock < quantity then
      Except.error (CartError.insufficientStock product.stock)
    else
      let ensured : DB × Cart :=
        match db.carts.find? (fun c => c.userId == userId) with
        | some c => (db, c)
        | none =>
          let c : Cart := ⟨db.nextId, userId, []⟩
          ({ db with carts := db.carts ++ [c], nextId := db.nextId + 1 }, c)
      let db1 := ensured.1
      let cart := ensured.2
      let existing : Option CartItem :=
        if customDesign.isNone then
          cart.items.find? (fun it => it.productId == productId && it.customDesign.isNone)
        else none
      match existing with
      | some it =>
        let newQty := it.quantity + quantity
        if product.stock < newQty then
          Except.error (CartError.insufficientStock product.stock)
        else
          let updated : CartItem := { it with quantity := newQty }
          Except.ok
            ( { db1 with
                  carts := db1.carts.map (fun c =>
                    if c.id == cart.id then
                      { c with items := c.items.map (fun j => if j.id == it.id then updated else j) }
                    else c) }
            , updated )
      | none =>
        let newItem : CartItem := ⟨db1.nextId, productId, quantity, customDesign⟩
        Except.ok
          ( { db1 with
                carts := db1.carts.map (fun c =>
                  if c.id == cart.id then { c with items := c.items ++ [newItem] } else c)
              , nextId := db1.nextId + 1 }
          , newItem )

/-- updateCartItem (cart controller lines 277-320): quantity below 1 is
rejected, the line must belong to the callers cart, the new quantity must not
exceed the snapshot stock; on success the quantity is replaced in place. -/
def updateCartItem (db : DB) (userId itemId : Nat) (quantity : ℤ) :
    Except CartError DB :=
  if quantity < 1 then Except.error CartError.invalidQuantity
  else
    match db.carts.find? (fun c => c.userId == userId) with
    | none => Except.error CartError.cartNotFound
    | some cart =>
      match cart.items.find? (fun it => it.id == itemId) with
      | none => Except.error CartError.itemNotFound
      | some it =>
        match findProduct db it.productId with
        | none => Except.error CartError.itemNotFound
        | some product =>
          if product.stock < quantity then
            Except.error (CartError.insufficientStock product.stock)
          else
            Except.ok
              { db with carts := db.carts.map (fun c =>
                  if c.id == cart.id then
                    { c with items := c.items.map (fun j =>
                        if j.id == itemId then { j with quantity := quantity } else j) }
                  else c) }

/-- removeFromCart (cart controller lines 327-348). -/
def removeFromCart (db : DB) (userId itemId : Nat) : Except CartError DB :=
  match db.carts.find? (fun c => c.userId == userId) with
  | none => Except.error CartError.cartNotFound
  | some cart =>
    match cart.items.find? (fun it => it.id == itemId) with
    | none => Except.error CartError.itemNotFound
    | some _ =>
      Except.ok
        { db with carts := db.carts.map (fun c =>
            if c.id == cart.id then
              { c with items := c.items.filter (fun j => !(j.id == itemId)) }
            else c) }

/-- clearCart (cart controller lines 355-368). -/
def clearCart (db : DB) (userId : Nat) : Except CartError DB :=
  match db.carts.find? (fun c => c.userId == userId) with
  | none => Except.error CartError.cartNotFound
  | some cart => Except.ok { db with carts := clearCartItems db.carts cart.id }

/-- Errors a cancelOrder or updateOrderStatus request can answer with. -/
inductive CancelError
  | notFound
  | forbidden
  | invalidState
  | internalError
deriving DecidableEq, Repr

/-- cancelOrder (news.js lines 480-520): the order must exist, the requester
must be the owner or an admin, the status must be PENDING or CONFIRMED; the
transaction then increments each referenced product by the line quantity and
sets the status to CANCELLED.  A missing product makes prisma.product.update
throw inside the transaction, rolling everything back (internalError). -/
def cancelOrder (db : DB) (requesterId : Nat) (isAdmin : Bool) (orderId : Nat) :
    Except CancelError DB :=
  match db.orders.find? (fun o => o.id == orderId) with
  | none => Except.error CancelError.notFound
  | some order =>
    if (order.userId != requesterId) && (!isAdmin) then Except.error CancelError.forbidden
    else if (order.status != OrderStatus.PENDING) && (order.status != OrderStatus.CONFIRMED) then
      Except.error CancelError.invalidState
    else
      match adjustManyChecked db.products (incPairs order.items) with
      | none => Except.error CancelError.internalError
      | some ps =>
        Except.ok
          { db with
              products := ps
            , orders := db.orders.map (fun o =>
                if o.id == order.id then { o with status := OrderStatus.CANCELLED } else o) }

/-- cancelOrder together with the store the request leaves behind: every
error reply performs no mutation (the early returns precede the transaction
and a thrown prisma error rolls the transaction back). -/
def cancelOrderRun (db : DB) (requesterId : Nat) (isAdmin : Bool) (orderId : Nat) :
    DB × Except CancelError Unit :=
  match cancelOrder db requesterId isAdmin orderId with
  | Except.error e => (db, Except.error e)
  | Except.ok db1 => (db1, Except.ok ())

/-- updateOrderStatus (news.js lines 576-609): the admin handler looks the
order up and updates only the status and paymentStatus fields, each when
given.  Status strings are validated against the enumerated set and
uppercased before this point; the embedding therefore receives the already
validated OrderStatus value. -/
def updateOrderStatus (db : DB) (orderId : Nat) (status : Option OrderStatus)
    (paymentStatus : Option String) : Except CancelError (DB × Order) :=
  match db.orders.find? (fun o => o.id == orderId) with
  | none => Except.error CancelError.notFound
  | some order =>
    let f : Order → Order := fun o =>
      { o with
          status := status.getD o.status
        , paymentStatus := paymentStatus.getD o.paymentStatus }
    Except.ok
      ( { db with orders := db.orders.map (fun o => if o.id == orderId then f o else o) }
      , f order )

/-- Two placeOrder requests interleaved: both pre-transaction phases (the
cart and product reads plus the validation loop, news.js lines 309-336,
which run outside prisma.$transaction) execute against the initial store,
then the two transaction bodies commit one after the other, each against the
store the previous commit left while keeping its own snapshot prices.  This
is a legal schedule of the two requests under any isolation level, because
the validation reads are separate earlier queries. -/
def placeOrderRace (db : DB) (u1 u2 : Nat) (a1 a2 : String) :
    DB × Except PlaceError Order × Except PlaceError Order :=
  match placeOrderValidate db u1, placeOrderValidate db u2 with
  | Except.error e1, Except.error e2 => (db, Except.error e1, Except.error e2)
  | Except.error e1, Except.ok c2 =>
    let r2 := placeOrderTx db db u2 a2 defaultPaymentMethod c2
    (r2.1, Except.error e1, Except.ok r2.2)
  | Except.ok c1, Except.error e2 =>
    let r1 := placeOrderTx db db u1 a1 defaultPaymentMethod c1
    (r1.1, Except.ok r1.2, Except.error e2)
  | Except.ok c1, Except.ok c2 =>
    let r1 := placeOrderTx db db u1 a1 defaultPaymentMethod c1
    let r2 := placeOrderTx r1.1 db u2 a2 defaultPaymentMethod c2
    (r2.1, Except.ok r1.2, Except.ok r2.2)

def addrA : String := "12 Main Street"

def addrB : String := "34 Oak Avenue"

def designBlue : String := "blue print"

/-- Store for the C1 scenario: one product with stock 5, one cart holding a
customized line and an uncustomized line for that same product, 3 units each. -/
def C1db : DB :=
  { products := [⟨100, 10, 5, true⟩]
  , carts := [⟨1, 1, [⟨2, 100, 3, some designBlue⟩, ⟨3, 100, 3, none⟩]⟩]
  , orders := []
  , nextId := 10 }

/-- The quantities of the lines of the cart of a user. -/
def cartQuantities (db : DB) (userId : Nat) : Option (List ℤ) :=
  (db.carts.find? (fun c => c.userId == userId)).map (fun c => c.items.map CartItem.quantity)

/-- The lines of the cart of a user. -/
def cartItemsOf (db : DB) (userId : Nat) : Option (List CartItem) :=
  (db.carts.find? (fun c => c.userId == userId)).map Cart.items

/-- The status of an order by id. -/
def statusOf (db : DB) (orderId : Nat) : Option OrderStatus :=
  (db.orders.find? (fun o => o.id == orderId)).map Order.status

/-- The store addToCart leaves behind. -/
def addToCartRun (db : DB) (userId productId : Nat) (quantity : ℤ)
    (customDesign : Option String) : DB :=
  match addToCart db userId productId quantity customDesign with
  | Except.ok x => x.1
  | Except.error _ => db

/-- Store for the C7 scenario: one active product with stock 5 and an empty
cart for user 1. -/
def C7db : DB :=
  { products := [⟨100, 10, 5, true⟩]
  , carts := [⟨1, 1, []⟩]
  , orders := []
  , nextId := 10 }

/-- Store for the C9 scenario: one product with a single unit of stock and
two customers whose carts each hold one line requesting that unit. -/
def C9db : DB :=
  { products := [⟨100, 10, 1, true⟩]
  , carts := [⟨1, 1, [⟨3, 100, 1, none⟩]⟩, ⟨2, 2, [⟨4, 100, 1, none⟩]⟩]
  , orders := []
  , nextId := 50 }

/-- Store for the C6 scenario: a PENDING order of user 1 with one line on the
existing product 100 and one line on product 999, which is no longer in the
catalog. -/
def C6db : DB :=
  { products := [⟨100, 10, 2, true⟩]
  , carts := []
  , orders :=
      [⟨50, 1, 40, addrA, defaultPaymentMethod, OrderStatus.PENDING, defaultPaymentStatus,
        [⟨100, 3, 10, none⟩, ⟨999, 2, 5, none⟩]⟩]
  , nextId := 60 }

/-- Witness store for C2: the spec scenario of stock 5 with one cart line of
5 units at unit price 10. -/
def W2db : DB :=
  { products := [⟨100, 10, 5, true⟩]
  , carts := [⟨1, 1, [⟨2, 100, 5, none⟩]⟩]
  , orders := []
  , nextId := 3 }

/-- The cart of user 1 inside W2db. -/
def W2cart : Cart := ⟨1, 1, [⟨2, 100, 5, none⟩]⟩

/-- Witness store for C3: the spec scenario of stock 5 with one cart line of
6 units. -/
def W3db : DB :=
  { products := [⟨100, 10, 5, true⟩]
  , carts := [⟨1, 1, [⟨2, 100, 6, none⟩]⟩]
  , orders := []
  , nextId := 3 }

/-- The cart of user 1 inside W3db. -/
def W3cart : Cart := ⟨1, 1, [⟨2, 100, 6, none⟩]⟩

/-- Witness store for C4: an order of 5 units of product 100 already placed
(stock went from 5 to 0), still PENDING. -/
def W4db : DB :=
  { products := [⟨100, 10, 0, true⟩]
  , carts := []
  , orders :=
      [⟨50, 1, 50, addrA, defaultPaymentMethod, OrderStatus.PENDING, defaultPaymentStatus,
        [⟨100, 5, 10, none⟩]⟩]
  , nextId := 60 }

/-- The order inside W4db. -/
def W4order : Order :=
  ⟨50, 1, 50, addrA, defaultPaymentMethod, OrderStatus.PENDING, defaultPaymentStatus,
    [⟨100, 5, 10, none⟩]⟩

/-- Witness store for C5: an order that is already CANCELLED. -/
def W5db : DB :=
  { products := [⟨100, 10, 5, true⟩]
  , carts := []
  , orders :=
      [⟨50, 1, 50, addrA, defaultPaymentMethod, OrderStatus.CANCELLED, defaultPaymentStatus,
        [⟨100, 5, 10, none⟩]⟩]
  , nextId := 60 }

/-- The order inside W5db. -/
def W5order : Order :=
  ⟨50, 1, 50, addrA, defaultPaymentMethod, OrderStatus.CANCELLED, defaultPaymentStatus,
    [⟨100, 5, 10, none⟩]⟩

/-- The order inside C6db. -/
def C6order : Order :=
  ⟨50, 1, 40, addrA, defaultPaymentMethod, OrderStatus.PENDING, defaultPaymentStatus,
    [⟨100, 3, 10, none⟩, ⟨999, 2, 5, none⟩]⟩

/-- Witness store for C10: a PENDING order of 5 units of product 100, whose
stock is already 0. -/
def W10db : DB :=
  { products := [⟨100, 10, 0, true⟩]
  , carts := []
  , orders :=
      [⟨50, 1, 50, addrA, defaultPaymentMethod, OrderStatus.PENDING, defaultPaymentStatus,
        [⟨100, 5, 10, none⟩]⟩]
  , nextId := 60 }

/-- The store left by the admin setting order 50 of W10db to CANCELLED. -/
def W10after : DB :=
  { products := [⟨100, 10, 0, true⟩]
  , carts := []
  , orders :=
      [⟨50, 1, 50, addrA, defaultPaymentMethod, OrderStatus.CANCELLED, defaultPaymentStatus,
        [⟨100, 5, 10, none⟩]⟩]
  , nextId := 60 }

/-- The order returned by that admin update. -/
def W10order : Order :=
  ⟨50, 1, 50, addrA, defaultPaymentMethod, OrderStatus.CANCELLED, defaultPaymentStatus,
    [⟨100, 5, 10, none⟩]⟩

/-- A store with a single active product (id pid, the given price and stock)
and a single cart of user uid holding the given lines; the id counter is at
n2.  Used to state the cart consolidation behaviour. -/
def cartDbWith (pid : Nat) (price : ℚ) (s : ℤ) (uid cid n2 : Nat)
    (items : List CartItem) : DB :=
  { products := [⟨pid, price, s, true⟩]
  , carts := [⟨cid, uid, items⟩]
  , orders := []
  , nextId := n2 }

/-- find? over a mapped list is the mapped find? when the map keeps the
predicate unchanged. -/
theorem find?_map_pred {α : Type} (f : α → α) (p : α → Bool) (l : List α)
    (hp : ∀ a, p (f a) = p a) : (l.map f).find? p = (l.find? p).map f := by
  induction l with
  | nil => rfl
  | cons a t ih =>
    by_cases h : p a = true
    · have hfa : p (f a) = true := by rw [hp a, h]
      simp [List.find?_cons, h, hfa]
    · have h2 : p a = false := by
        cases hh : p a
        · rfl
        · exact absurd hh h
      have hfa : p (f a) = false := by rw [hp a, h2]
      simp [List.find?_cons, h2, hfa, ih]

/-- Adjusting one product changes exactly that stock entry. -/
theorem stockOf_adjustStock (ps : List Product) (q : Nat) (d : ℤ) (pid : Nat) :
    stockOf (adjustStock ps q d) pid =
      if q = pid then (stockOf ps pid).map (fun s => s + d) else stockOf ps pid := by
  have hp : ∀ p : Product,
      ((if p.id == q then { p with stock := p.stock + d } else p).id == pid)
        = (p.id == pid) := by
    intro p
    by_cases h : (p.id == q) = true
    · simp [h]
    · simp [h]
  unfold stockOf adjustStock
  rw [find?_map_pred _ _ _ hp]
  cases h : ps.find? (fun p => p.id == pid) with
  | none => by_cases hq : q = pid <;> simp [hq]
  | some a =>
    have ha := List.find?_some h
    have ha2 : a.id = pid := by simpa using ha
    by_cases hq : q = pid
    · subst hq
      simp [ha2]
    · have hne : a.id ≠ q := by omega
      simp [hq, hne]

/-- Folding a pair list over the stock adjusts each product by the total
delta of its pairs. -/
theorem stockOf_adjustMany (l : List (Nat × ℤ)) (ps : List Product) (pid : Nat) :
    stockOf (adjustMany ps l) pid = (stockOf ps pid).map (fun s => s + qtySum l pid) := by
  induction l generalizing ps with
  | nil =>
    have hq : qtySum [] pid = 0 := rfl
    simp only [adjustMany, List.foldl_nil, hq]
    cases stockOf ps pid <;> simp
  | cons x t ih =>
    have hstep : adjustMany ps (x :: t) = adjustMany (adjustStock ps x.1 x.2) t := rfl
    rw [hstep, ih, stockOf_adjustStock]
    by_cases hx : x.1 = pid
    · have hq : qtySum (x :: t) pid = x.2 + qtySum t pid := by
        simp [qtySum, List.filter_cons, hx]
      rw [hq, if_pos hx]
      cases stockOf ps pid with
      | none => rfl
      | some s => exact congrArg some (by ring)
    · have hq : qtySum (x :: t) pid = qtySum t pid := by
        have hb : ((x.1 == pid) : Bool) = false := by
          simp
          omega
        simp [qtySum, List.filter_cons, hb]
      rw [hq]
      simp [hx]

/-- Negating every delta of a pair list negates its per-product totals. -/
theorem qtySum_negMap (l : List (Nat × ℤ)) (pid : Nat) :
    qtySum (l.map (fun x => (x.1, -x.2))) pid = -(qtySum l pid) := by
  induction l with
  | nil => rfl
  | cons a t ih =>
    by_cases h : a.1 = pid
    · simp [qtySum, List.filter_cons, h] at *
      omega
    · simp [qtySum, List.filter_cons, h] at *
      exact ih

/-- The decrement pair list of a cart carries the negated per-product
quantity totals of the cart. -/
theorem qtySum_decPairs (items : List CartItem) (pid : Nat) :
    qtySum (decPairs items) pid = -(qtySum (cartPairs items) pid) := by
  induction items with
  | nil => rfl
  | cons a t ih =>
    have hd : decPairs (a :: t) = (a.productId, -a.quantity) :: decPairs t := rfl
    have hc : cartPairs (a :: t) = (a.productId, a.quantity) :: cartPairs t := rfl
    rw [hd, hc]
    by_cases h : a.productId = pid
    · simp [qtySum, List.filter_cons, h] at *
      omega
    · simp [qtySum, List.filter_cons, h] at *
      exact ih

/-- The restore pair list of the frozen order lines equals the pair list of
the cart lines they were copied from. -/
theorem incPairs_map_toOrderItem (db : DB) (items : List CartItem) :
    incPairs (items.map (toOrderItem db)) = cartPairs items := by
  induction items with
  | nil => rfl
  | cons a t ih =>
    have h1 : incPairs ((a :: t).map (toOrderItem db))
        = (a.productId, a.quantity) :: incPairs (t.map (toOrderItem db)) := rfl
    have h2 : cartPairs (a :: t) = (a.productId, a.quantity) :: cartPairs t := rfl
    rw [h1, h2, ih]

/-- When every product a pair list touches exists, the checked fold is the
plain fold. -/
theorem adjustManyChecked_eq_some (l : List (Nat × ℤ)) (ps : List Product)
    (h : ∀ x ∈ l, (stockOf ps x.1).isSome = true) :
    adjustManyChecked ps l = some (adjustMany ps l) := by
  induction l generalizing ps with
  | nil => rfl
  | cons x t ih =>
    have hx := h x (List.mem_cons_self x t)
    have ht : ∀ y ∈ t, (stockOf (adjustStock ps x.1 x.2) y.1).isSome = true := by
      intro y hy
      have heq : (stockOf (adjustStock ps x.1 x.2) y.1).isSome
          = (stockOf ps y.1).isSome := by
        rw [stockOf_adjustStock]
        by_cases hq : x.1 = y.1 <;> simp [hq]
      rw [heq]
      exact h y (List.mem_cons_of_mem x hy)
    have hstep : adjustMany ps (x :: t) = adjustMany (adjustStock ps x.1 x.2) t := rfl
    rw [hstep]
    simp only [adjustManyChecked, hx, if_true]
    exact ih (adjustStock ps x.1 x.2) ht

/-- When some product a pair list touches is missing, the checked fold
aborts. -/
theorem adjustManyChecked_eq_none (l : List (Nat × ℤ)) (ps : List Product)
    (h : ∃ x ∈ l, stockOf ps x.1 = none) :
    adjustManyChecked ps l = none := by
  induction l generalizing ps with
  | nil =>
    obtain ⟨x, hx, _⟩ := h
    exact absurd hx (List.not_mem_nil x)
  | cons y t ih =>
    obtain ⟨x, hx, hnone⟩ := h
    by_cases hy : (stockOf ps y.1).isSome = true
    · have hxt : x ∈ t := by
        rcases List.mem_cons.mp hx with h1 | h1
        · subst h1
          rw [hnone] at hy
          simp at hy
        · exact h1
      have hnone2 : stockOf (adjustStock ps y.1 y.2) x.1 = none := by
        rw [stockOf_adjustStock]
        by_cases hq : y.1 = x.1 <;> simp [hq, hnone]
      simp only [adjustManyChecked, hy, if_true]
      exact ih (adjustStock ps y.1 y.2) ⟨x, hxt, hnone2⟩
    · have hy2 : (stockOf ps y.1).isSome = false := by
        cases hh : (stockOf ps y.1).isSome
        · rfl
        · exact absurd hh hy
      simp only [adjustManyChecked, hy2]
      rfl

/-- A cart whose every line has an existing, active product with enough
stock passes the validation loop. -/
theorem firstValidationError_none_of_valid (db : DB) (items : List CartItem)
    (h : ∀ it ∈ items, ∃ p, findProduct db it.productId = some p ∧
        p.isActive = true ∧ it.quantity ≤ p.stock) :
    firstValidationError db items = none := by
  induction items with
  | nil => rfl
  | cons a t ih =>
    obtain ⟨p, hp, hact, hq⟩ := h a (List.mem_cons_self a t)
    have hlt : ¬ p.stock < a.quantity := not_lt.mpr hq
    simp only [firstValidationError, hp]
    rw [if_neg (by simp [hact]), if_neg hlt]
    exact ih (fun it hit => h it (List.mem_cons_of_mem a hit))

/-- A cart that passes the validation loop has, for every line, an existing
active product with enough stock. -/
theorem firstValidationError_none_forall (db : DB) (items : List CartItem)
    (h : firstValidationError db items = none) :
    ∀ it ∈ items, ∃ p, findProduct db it.productId = some p ∧
      p.isActive = true ∧ it.quantity ≤ p.stock := by
  induction items with
  | nil =>
    intro it hit
    exact absurd hit (List.not_mem_nil it)
  | cons a t ih =>
    intro it hit
    cases hp : findProduct db a.productId with
    | none =>
      simp only [firstValidationError, hp] at h
      exact Option.noConfusion h
    | some p =>
      simp only [firstValidationError, hp] at h
      by_cases hact : p.isActive = false
      · rw [if_pos hact] at h
        exact Option.noConfusion h
      · rw [if_neg hact] at h
        by_cases hq : p.stock < a.quantity
        · rw [if_pos hq] at h
          exact Option.noConfusion h
        · rw [if_neg hq] at h
          have hact2 : p.isActive = true := by
            cases hb : p.isActive
            · exact absurd hb hact
            · rfl
          rcases List.mem_cons.mp hit with h1 | h1
          · subst h1
            exact ⟨p, hp, hact2, not_lt.mp hq⟩
          · exact ih h it h1

/-- A cart with every product present but some line inactive or short on
stock is rejected by the validation loop with one of the two advertised
errors. -/
theorem firstValidationError_some_of_bad (db : DB) (items : List CartItem)
    (hex : ∀ it ∈ items, (findProduct db it.productId).isSome = true)
    (hbad : ∃ it ∈ items, ∃ p, findProduct db it.productId = some p ∧
        (p.isActive = false ∨ p.stock < it.quantity)) :
    ∃ e, firstValidationError db items = some e ∧
      ((∃ q, e = PlaceError.productUnavailable q) ∨
        ∃ q s, e = PlaceError.insufficientStock q s) := by
  induction items with
  | nil =>
    obtain ⟨it, hit, _⟩ := hbad
    exact absurd hit (List.not_mem_nil it)
  | cons a t ih =>
    have ha := hex a (List.mem_cons_self a t)
    obtain ⟨p, hp⟩ := Option.isSome_iff_exists.mp ha
    by_cases hact : p.isActive = false
    · exact ⟨PlaceError.productUnavailable p.id,
        by simp [firstValidationError, hp, hact], Or.inl ⟨p.id, rfl⟩⟩
    · by_cases hq : p.stock < a.quantity
      · exact ⟨PlaceError.insufficientStock p.id p.stock,
          by simp [firstValidationError, hp, hact, hq], Or.inr ⟨p.id, p.stock, rfl⟩⟩
      · have hbad2 : ∃ it ∈ t, ∃ p2, findProduct db it.productId = some p2 ∧
            (p2.isActive = false ∨ p2.stock < it.quantity) := by
          obtain ⟨it, hit, p2, hp2, hor⟩ := hbad
          rcases List.mem_cons.mp hit with h1 | h1
          · subst h1
            rw [hp] at hp2
            injection hp2 with hpp
            subst hpp
            rcases hor with h2 | h2
            · exact absurd h2 hact
            · exact absurd h2 hq
          · exact ⟨it, h1, p2, hp2, hor⟩
        have hex2 : ∀ it ∈ t, (findProduct db it.productId).isSome = true :=
          fun it hit => hex it (List.mem_cons_of_mem a hit)
        obtain ⟨e, he, hsh⟩ := ih hex2 hbad2
        exact ⟨e, by simp [firstValidationError, hp, hact, hq, he], hsh⟩

/-- When every line has an active product the validation loop never answers
ProductUnavailable. -/
theorem firstValidationError_not_unavailable (db : DB) (items : List CartItem)
    (hact : ∀ it ∈ items, ∀ p, findProduct db it.productId = some p → p.isActive = true) :
    ∀ q, firstValidationError db items ≠ some (PlaceError.productUnavailable q) := by
  induction items with
  | nil =>
    intro q h
    simp [firstValidationError] at h
  | cons a t ih =>
    intro q h
    cases hp : findProduct db a.productId with
    | none =>
      simp [firstValidationError, hp] at h
    | some p =>
      have ha : p.isActive = true := hact a (List.mem_cons_self a t) p hp
      by_cases hq : p.stock < a.quantity
      · simp [firstValidationError, hp, ha, hq] at h
      · simp [firstValidationError, hp, ha, hq] at h
        exact ih (fun it hit => hact it (List.mem_cons_of_mem a hit)) q h

/-- When every line has enough stock the validation loop never answers
InsufficientStock. -/
theorem firstValidationError_not_insufficient (db : DB) (items : List CartItem)
    (hst : ∀ it ∈ items, ∀ p, findProduct db it.productId = some p → it.quantity ≤ p.stock) :
    ∀ q s, firstValidationError db items ≠ some (PlaceError.insufficientStock q s) := by
  induction items with
  | nil =>
    intro q s h
    simp [firstValidationError] at h
  | cons a t ih =>
    intro q s h
    cases hp : findProduct db a.productId with
    | none =>
      simp [firstValidationError, hp] at h
    | some p =>
      have hle := hst a (List.mem_cons_self a t) p hp
      have hq : ¬ p.stock < a.quantity := not_lt.mpr hle
      by_cases hact : p.isActive = false
      · simp [firstValidationError, hp, hact] at h
      · simp [firstValidationError, hp, hact, hq] at h
        exact ih (fun it hit => hst it (List.mem_cons_of_mem a hit)) q s h

/-- C2: for every customer whose cart exists and is non-empty, with every
line referencing an active product whose stock covers the line quantity, and
a shipping address given, placeOrder succeeds; afterwards an order has been
appended whose status is PENDING, whose lines are copies of the cart lines
(product id and quantity copied, price copied from the catalog at this
instant), whose total is the sum of unit price times quantity rounded to two
decimals, each referenced product has had its stock decremented by the total
quantity the cart ordered of it, and the customer's cart record still exists
but holds no lines. -/
theorem placeOrder_success_postconditions
    (db : DB) (uid : Nat) (addr : String) (pm : Option String) (cart : Cart)
    (hcart : db.carts.find? (fun c => c.userId == uid) = some cart)
    (hne : cart.items ≠ [])
    (hval : ∀ it ∈ cart.items, ∃ p, findProduct db it.productId = some p ∧
        p.isActive = true ∧ it.quantity ≤ p.stock) :
    ∃ db1 order, placeOrder db uid (some addr) pm = Except.ok (db1, order) ∧
      order.status = OrderStatus.PENDING ∧
      order.items = cart.items.map (toOrderItem db) ∧
      (∀ it ∈ cart.items, (toOrderItem db it).productId = it.productId ∧
        (toOrderItem db it).quantity = it.quantity ∧
        ∀ p, findProduct db it.productId = some p → (toOrderItem db it).price = p.price) ∧
      order.total = round2 (cartTotal db cart.items) ∧
      (∀ pid, stockOf db1.products pid =
        (stockOf db.products pid).map (fun s => s - qtySum (cartPairs cart.items) pid)) ∧
      (db1.carts.find? (fun c => c.userId == uid)).map Cart.items = some [] ∧
      db1.orders = db.orders ++ [order] := by
  have hval2 : firstValidationError db cart.items = none :=
    firstValidationError_none_of_valid db cart.items hval
  have hne2 : cart.items.isEmpty = false := by
    cases hi : cart.items
    · exact absurd hi hne
    · rfl
  have hvres : placeOrderValidate db uid = Except.ok cart := by
    simp only [placeOrderValidate, hcart, hne2, hval2, Bool.false_eq_true, if_false]
  refine ⟨(placeOrderTx db db uid addr (pm.getD defaultPaymentMethod) cart).1,
    (placeOrderTx db db uid addr (pm.getD defaultPaymentMethod) cart).2,
    ?_, rfl, rfl, ?_, rfl, ?_, ?_, rfl⟩
  · simp only [placeOrder, hvres, Prod.mk.eta]
  · intro it hit
    refine ⟨rfl, rfl, ?_⟩
    intro p hp
    simp [toOrderItem, priceOf, hp]
  · intro pid
    have h1 := stockOf_adjustMany (decPairs cart.items) db.products pid
    have h2 := qtySum_decPairs cart.items pid
    rw [h2] at h1
    show stockOf (adjustMany db.products (decPairs cart.items)) pid = _
    rw [h1]
    cases stockOf db.products pid with
    | none => rfl
    | some s => exact congrArg some (by ring)
  · have hpuser : ∀ c : Cart,
        ((if c.id == cart.id then { c with items := ([] : List CartItem) } else c).userId == uid)
          = (c.userId == uid) := by
      intro c
      by_cases h : (c.id == cart.id) = true
      · simp [h]
      · simp [h]
    show ((clearCartItems db.carts cart.id).find? (fun c => c.userId == uid)).map Cart.items
        = some []
    unfold clearCartItems
    rw [find?_map_pred _ _ _ hpuser, hcart]
    simp

/-- Witness for C2 at the spec scenario: stock 5, one uncustomized cart line
of 5 units; placeOrder succeeds, the stock reaches 0, the order total is the
unit price times 5 and the cart is emptied. -/
theorem placeOrder_success_postconditions_witness :
    ∃ db1 order, placeOrder W2db 1 (some addrA) none = Except.ok (db1, order) ∧
      order.status = OrderStatus.PENDING ∧
      order.items = W2cart.items.map (toOrderItem W2db) ∧
      (∀ it ∈ W2cart.items, (toOrderItem W2db it).productId = it.productId ∧
        (toOrderItem W2db it).quantity = it.quantity ∧
        ∀ p, findProduct W2db it.productId = some p → (toOrderItem W2db it).price = p.price) ∧
      order.total = round2 (cartTotal W2db W2cart.items) ∧
      (∀ pid, stockOf db1.products pid =
        (stockOf W2db.products pid).map (fun s => s - qtySum (cartPairs W2cart.items) pid)) ∧
      (db1.carts.find? (fun c => c.userId == 1)).map Cart.items = some [] ∧
      db1.orders = W2db.orders ++ [order] :=
  placeOrder_success_postconditions W2db 1 addrA none W2cart rfl (by decide)
    (by
      intro it hit
      have h1 : it = (⟨2, 100, 5, none⟩ : CartItem) := by
        simpa [W2cart] using hit
      subst h1
      exact ⟨⟨100, 10, 5, true⟩, rfl, rfl, by decide⟩)

/-- C3: for every cart in which some line's product is inactive or some
line's quantity exceeds the current stock (all referenced products being
present), placeOrder fails and leaves the store exactly as it was — the
validation loop runs before any mutation.  The error is one of
ProductUnavailable and InsufficientStock; when every product is active the
error is InsufficientStock, and when every line is within stock the error is
ProductUnavailable. -/
theorem placeOrder_rejects_invalid_lines
    (db : DB) (uid : Nat) (addr : String) (pm : Option String) (cart : Cart)
    (hcart : db.carts.find? (fun c => c.userId == uid) = some cart)
    (hex : ∀ it ∈ cart.items, (findProduct db it.productId).isSome = true)
    (hbad : ∃ it ∈ cart.items, ∃ p, findProduct db it.productId = some p ∧
        (p.isActive = false ∨ p.stock < it.quantity)) :
    ∃ e, placeOrderRun db uid (some addr) pm = (db, Except.error e) ∧
      ((∃ q, e = PlaceError.productUnavailable q) ∨
        ∃ q s, e = PlaceError.insufficientStock q s) ∧
      ((∀ it ∈ cart.items, ∀ p, findProduct db it.productId = some p → p.isActive = true) →
        ∃ q s, e = PlaceError.insufficientStock q s) ∧
      ((∀ it ∈ cart.items, ∀ p, findProduct db it.productId = some p → it.quantity ≤ p.stock) →
        ∃ q, e = PlaceError.productUnavailable q) := by
  obtain ⟨e, he, hsh⟩ := firstValidationError_some_of_bad db cart.items hex hbad
  have hne2 : cart.items.isEmpty = false := by
    obtain ⟨it, hit, _⟩ := hbad
    cases hi : cart.items
    · rw [hi] at hit
      exact absurd hit (List.not_mem_nil it)
    · rfl
  have hvres : placeOrderValidate db uid = Except.error e := by
    simp only [placeOrderValidate, hcart, hne2, Bool.false_eq_true, if_false, he]
  refine ⟨e, ?_, hsh, ?_, ?_⟩
  · simp only [placeOrderRun, placeOrder, hvres]
  · intro hact
    rcases hsh with ⟨q, rfl⟩ | h2
    · exact absurd he (firstValidationError_not_unavailable db cart.items hact q)
    · exact h2
  · intro hst
    rcases hsh with h1 | ⟨q, s, rfl⟩
    · exact h1
    · exact absurd he (firstValidationError_not_insufficient db cart.items hst q s)

/-- Witness for C3 at the spec scenario: stock 5, one cart line of 6 units;
placeOrder fails with InsufficientStock and the store is unchanged (the
stock stays 5 and the cart line stays at 6 units). -/
theorem placeOrder_rejects_invalid_lines_witness :
    ∃ e, placeOrderRun W3db 1 (some addrA) none = (W3db, Except.error e) ∧
      ((∃ q, e = PlaceError.productUnavailable q) ∨
        ∃ q s, e = PlaceError.insufficientStock q s) ∧
      ((∀ it ∈ W3cart.items, ∀ p, findProduct W3db it.productId = some p → p.isActive = true) →
        ∃ q s, e = PlaceError.insufficientStock q s) ∧
      ((∀ it ∈ W3cart.items, ∀ p, findProduct W3db it.productId = some p → it.quantity ≤ p.stock) →
        ∃ q, e = PlaceError.productUnavailable q) :=
  placeOrder_rejects_invalid_lines W3db 1 addrA none W3cart rfl (by decide)
    ⟨⟨2, 100, 6, none⟩, by decide, ⟨100, 10, 5, true⟩, rfl, Or.inr (by decide)⟩

/-- C4: for every order in status PENDING or CONFIRMED whose referenced
products all still exist, cancelOrder by the owner succeeds, sets the order
status to CANCELLED and increments each referenced product's stock by the
total quantity the order's lines hold of it; consequently, whenever the
current stocks are exactly those left by decrementing some earlier stocks by
this order's lines (as placeOrder does), cancellation restores the earlier
stocks exactly — per product, the delta of placement followed by
cancellation is zero. -/
theorem cancelOrder_restores_stock
    (db : DB) (uid oid : Nat) (order : Order)
    (hord : db.orders.find? (fun o => o.id == oid) = some order)
    (hown : order.userId = uid)
    (hst : order.status = OrderStatus.PENDING ∨ order.status = OrderStatus.CONFIRMED)
    (hex : ∀ it ∈ order.items, (stockOf db.products it.productId).isSome = true) :
    ∃ db1, cancelOrder db uid false oid = Except.ok db1 ∧
      statusOf db1 oid = some OrderStatus.CANCELLED ∧
      (∀ pid, stockOf db1.products pid =
        (stockOf db.products pid).map (fun s => s + qtySum (incPairs order.items) pid)) ∧
      (∀ ps0 : List Product,
        db.products = adjustMany ps0 ((incPairs order.items).map (fun x => (x.1, -x.2))) →
        ∀ pid, stockOf db1.products pid = stockOf ps0 pid) := by
  have hexp : ∀ x ∈ incPairs order.items, (stockOf db.products x.1).isSome = true := by
    intro x hx
    obtain ⟨it, hit, rfl⟩ := List.mem_map.mp hx
    exact hex it hit
  have hchecked := adjustManyChecked_eq_some (incPairs order.items) db.products hexp
  have hbne : (order.userId != uid) = false := by
    rw [hown]
    simp
  have hstb : ((order.status != OrderStatus.PENDING) &&
      (order.status != OrderStatus.CONFIRMED)) = false := by
    rcases hst with h | h <;> rw [h] <;> rfl
  have hcancel : cancelOrder db uid false oid = Except.ok
      { db with
          products := adjustMany db.products (incPairs order.items)
        , orders := db.orders.map (fun o =>
            if o.id == order.id then { o with status := OrderStatus.CANCELLED } else o) } := by
    simp only [cancelOrder, hord, hbne, hstb, Bool.not_false, Bool.false_and,
      Bool.false_eq_true, if_false, hchecked]
  refine ⟨_, hcancel, ?_, ?_, ?_⟩
  · have hpid : ∀ o : Order,
        ((if o.id == order.id then { o with status := OrderStatus.CANCELLED } else o).id == oid)
          = (o.id == oid) := by
      intro o
      by_cases h : (o.id == order.id) = true
      · simp [h]
      · simp [h]
    show ((db.orders.map (fun o =>
        if o.id == order.id then { o with status := OrderStatus.CANCELLED } else o)).find?
          (fun o => o.id == oid)).map Order.status = some OrderStatus.CANCELLED
    rw [find?_map_pred _ _ _ hpid, hord]
    simp
  · intro pid
    exact stockOf_adjustMany (incPairs order.items) db.products pid
  · intro ps0 h0 pid
    show stockOf (adjustMany db.products (incPairs order.items)) pid = stockOf ps0 pid
    rw [stockOf_adjustMany, h0, stockOf_adjustMany, qtySum_negMap]
    cases stockOf ps0 pid with
    | none => rfl
    | some s => exact congrArg some (by ring)

/-- Witness for C4 at the spec scenario: an order of 5 units placed against
a stock that went from 5 to 0; cancelling it returns the stock to 5 and sets
the order status to CANCELLED. -/
theorem cancelOrder_restores_stock_witness :
    ∃ db1, cancelOrder W4db 1 false 50 = Except.ok db1 ∧
      statusOf db1 50 = some OrderStatus.CANCELLED ∧
      (∀ pid, stockOf db1.products pid =
        (stockOf W4db.products pid).map (fun s => s + qtySum (incPairs W4order.items) pid)) ∧
      (∀ ps0 : List Product,
        W4db.products = adjustMany ps0 ((incPairs W4order.items).map (fun x => (x.1, -x.2))) →
        ∀ pid, stockOf db1.products pid = stockOf ps0 pid) :=
  cancelOrder_restores_stock W4db 1 50 W4order rfl rfl (Or.inl rfl) (by decide)

/-- C5: for every order whose status is neither PENDING nor CONFIRMED (for
instance SHIPPED or already CANCELLED), cancelOrder by the owner fails with
the InvalidState rejection (news.js lines 495-500) and leaves the store
untouched; in particular a second cancellation of an already CANCELLED order
never credits stock a second time. -/
theorem cancelOrder_invalid_state_noop
    (db : DB) (uid oid : Nat) (order : Order)
    (hord : db.orders.find? (fun o => o.id == oid) = some order)
    (hown : order.userId = uid)
    (hst1 : order.status ≠ OrderStatus.PENDING)
    (hst2 : order.status ≠ OrderStatus.CONFIRMED) :
    cancelOrderRun db uid false oid = (db, Except.error CancelError.invalidState) := by
  have hbne : (order.userId != uid) = false := by
    rw [hown]
    simp
  have hstb : ((order.status != OrderStatus.PENDING) &&
      (order.status != OrderStatus.CONFIRMED)) = true := by
    revert hst1 hst2
    cases order.status <;> intro hst1 hst2 <;>
      first
      | exact absurd rfl hst1
      | exact absurd rfl hst2
      | rfl
  simp only [cancelOrderRun, cancelOrder, hord, hbne, Bool.false_and, Bool.false_eq_true,
    if_false, hstb, if_true]

/-- Witness for C5 at the spec scenario: cancelling an already CANCELLED
order fails with InvalidState and the store — stock included — is unchanged. -/
theorem cancelOrder_invalid_state_noop_witness :
    cancelOrderRun W5db 1 false 50 = (W5db, Except.error CancelError.invalidState) :=
  cancelOrder_invalid_state_noop W5db 1 50 W5order rfl rfl (by decide) (by decide)

/-- C6 amended: for every cancellable order (status PENDING or CONFIRMED)
some of whose lines reference a product that no longer exists, cancelOrder
does not proceed: the prisma update of the missing product throws inside the
transaction, everything rolls back, and the request fails with an internal
error, leaving the order status and every stock unchanged. -/
theorem cancelOrder_missing_product_fails
    (db : DB) (uid oid : Nat) (order : Order)
    (hord : db.orders.find? (fun o => o.id == oid) = some order)
    (hown : order.userId = uid)
    (hst : order.status = OrderStatus.PENDING ∨ order.status = OrderStatus.CONFIRMED)
    (hmiss : ∃ it ∈ order.items, stockOf db.products it.productId = none) :
    cancelOrderRun db uid false oid = (db, Except.error CancelError.internalError) := by
  have hbne : (order.userId != uid) = false := by
    rw [hown]
    simp
  have hstb : ((order.status != OrderStatus.PENDING) &&
      (order.status != OrderStatus.CONFIRMED)) = false := by
    rcases hst with h | h <;> rw [h] <;> rfl
  have hmiss2 : ∃ x ∈ incPairs order.items, stockOf db.products x.1 = none := by
    obtain ⟨it, hit, hn⟩ := hmiss
    exact ⟨(it.productId, it.quantity), List.mem_map.mpr ⟨it, hit, rfl⟩, hn⟩
  have hchecked := adjustManyChecked_eq_none (incPairs order.items) db.products hmiss2
  simp only [cancelOrderRun, cancelOrder, hord, hbne, hstb, Bool.false_and,
    Bool.false_eq_true, if_false, hchecked]

/-- Witness for the amended C6: on the store C6db (order 50 of user 1 holds
a line on the deleted product 999), cancellation fails with an internal
error and the store is untouched. -/
theorem cancelOrder_missing_product_fails_witness :
    cancelOrderRun C6db 1 false 50 = (C6db, Except.error CancelError.internalError) :=
  cancelOrder_missing_product_fails C6db 1 50 C6order rfl rfl (Or.inl rfl)
    ⟨⟨999, 2, 5, none⟩, by decide, by decide⟩

/-- Mapping a pointwise-invisible update over a list leaves any projection
of the list unchanged. -/
theorem map_frame_of_pointwise {α β : Type} (g : α → β) (f : α → α) (l : List α)
    (hf : ∀ a, g (f a) = g a) : (l.map f).map g = l.map g := by
  induction l with
  | nil => rfl
  | cons a t ih => simp [hf a, ih]

/-- find? by id after an id-preserving pointwise update keyed on the same
id: the found order is the updated found order. -/
theorem statusOf_after_update (db : DB) (oid : Nat) (upd : Order → Order) (order : Order)
    (hord : db.orders.find? (fun o => o.id == oid) = some order)
    (hupd : ∀ o, (upd o).id = o.id) :
    ((db.orders.map (fun o => if o.id == oid then upd o else o)).find?
        (fun o => o.id == oid)).map Order.status
      = some (upd order).status := by
  have hp : ∀ o : Order, (((if o.id == oid then upd o else o).id) == oid) = (o.id == oid) := by
    intro o
    by_cases h : (o.id == oid) = true
    · rw [if_pos h, hupd o]
    · rw [if_neg h]
  rw [find?_map_pred _ _ _ hp, hord]
  have hidtrue := List.find?_some hord
  show some ((if order.id == oid then upd order else order).status) = some (upd order).status
  rw [if_pos hidtrue]

/-- C10: for every existing order and every already validated target status
(and optional payment status), the admin updateOrderStatus succeeds and
changes only the status and paymentStatus fields: the products (hence every
stock counter), the carts, and every other field of every order are
unchanged, and the targeted order carries the requested status afterwards.
In particular setting an order to CANCELLED through this admin path does not
restore stock. -/
theorem updateOrderStatus_frame
    (db : DB) (oid : Nat) (st : Option OrderStatus) (pay : Option String)
    (db1 : DB) (o : Order)
    (h : updateOrderStatus db oid st pay = Except.ok (db1, o)) :
    db1.products = db.products ∧
    db1.carts = db.carts ∧
    db1.orders.map (fun o2 => (o2.id, o2.userId, o2.total, o2.shippingAddress,
      o2.paymentMethod, o2.items)) =
      db.orders.map (fun o2 => (o2.id, o2.userId, o2.total, o2.shippingAddress,
        o2.paymentMethod, o2.items)) ∧
    (∀ s2, st = some s2 → statusOf db1 oid = some s2) := by
  cases hord : db.orders.find? (fun o2 => o2.id == oid) with
  | none =>
    simp only [updateOrderStatus, hord] at h
    exact Except.noConfusion h
  | some order =>
    simp only [updateOrderStatus, hord, Except.ok.injEq, Prod.mk.injEq] at h
    obtain ⟨hdb, ho⟩ := h
    subst hdb
    refine ⟨rfl, rfl, ?_, ?_⟩
    · apply map_frame_of_pointwise
      intro o2
      by_cases h2 : (o2.id == oid) = true
      · simp [h2]
      · simp [h2]
    · intro s2 hs2
      subst hs2
      exact statusOf_after_update db oid
        (fun o2 =>
          { o2 with
              status := (some s2).getD o2.status
            , paymentStatus := pay.getD o2.paymentStatus })
        order hord (fun o2 => rfl)

/-- Witness for C10: the admin sets the PENDING order 50 (5 units of product
100, stock already 0) to CANCELLED; the product list, hence the stock, is
unchanged, as is every non-status field of the order. -/
theorem updateOrderStatus_frame_witness :
    W10after.products = W10db.products ∧
    W10after.carts = W10db.carts ∧
    W10after.orders.map (fun o2 => (o2.id, o2.userId, o2.total, o2.shippingAddress,
      o2.paymentMethod, o2.items)) =
      W10db.orders.map (fun o2 => (o2.id, o2.userId, o2.total, o2.shippingAddress,
        o2.paymentMethod, o2.items)) ∧
    (∀ s2, some OrderStatus.CANCELLED = some s2 → statusOf W10after 50 = some s2) :=
  updateOrderStatus_frame W10db 50 (some OrderStatus.CANCELLED) none W10after W10order
    (by decide)

/-- C8: on a store with one active product (stock s) and an empty cart,
adding the product twice without a customization merges into a single cart
line whose quantity is the sum of the two requests (and the second add is
rejected with InsufficientStock when the merged quantity would exceed the
stock), while adding it once with a customization and once without yields
two distinct lines — customized lines are never merged. -/
theorem addToCart_merge_and_customized
    (pid uid cid n : Nat) (price : ℚ) (s q1 q2 : ℤ) (d : String)
    (h1 : 0 < q1) (h2 : 0 < q2) :
    (q1 + q2 ≤ s →
      addToCart (cartDbWith pid price s uid cid n []) uid pid q1 none
          = Except.ok (cartDbWith pid price s uid cid (n + 1) [⟨n, pid, q1, none⟩],
              ⟨n, pid, q1, none⟩) ∧
        addToCart (cartDbWith pid price s uid cid (n + 1) [⟨n, pid, q1, none⟩]) uid pid q2 none
          = Except.ok (cartDbWith pid price s uid cid (n + 1) [⟨n, pid, q1 + q2, none⟩],
              ⟨n, pid, q1 + q2, none⟩) ∧
        cartItemsOf (cartDbWith pid price s uid cid (n + 1) [⟨n, pid, q1 + q2, none⟩]) uid
          = some [⟨n, pid, q1 + q2, none⟩]) ∧
    (s < q1 + q2 →
      addToCart (cartDbWith pid price s uid cid (n + 1) [⟨n, pid, q1, none⟩]) uid pid q2 none
        = Except.error (CartError.insufficientStock s)) ∧
    (q1 ≤ s → q2 ≤ s →
      addToCart (cartDbWith pid price s uid cid n []) uid pid q1 (some d)
          = Except.ok (cartDbWith pid price s uid cid (n + 1) [⟨n, pid, q1, some d⟩],
              ⟨n, pid, q1, some d⟩) ∧
        addToCart (cartDbWith pid price s uid cid (n + 1) [⟨n, pid, q1, some d⟩]) uid pid q2 none
          = Except.ok (cartDbWith pid price s uid cid (n + 2)
                [⟨n, pid, q1, some d⟩, ⟨n + 1, pid, q2, none⟩],
              ⟨n + 1, pid, q2, none⟩) ∧
        cartItemsOf (cartDbWith pid price s uid cid (n + 2)
            [⟨n, pid, q1, some d⟩, ⟨n + 1, pid, q2, none⟩]) uid
          = some [⟨n, pid, q1, some d⟩, ⟨n + 1, pid, q2, none⟩]) := by
  refine ⟨?_, ?_, ?_⟩
  · intro hA
    have hq1 : ¬ s < q1 := by omega
    have hq2 : ¬ s < q2 := by omega
    have hq12 : ¬ s < q1 + q2 := by omega
    refine ⟨?_, ?_, ?_⟩
    · simp [addToCart, cartDbWith, findProduct, hq1]
    · simp [addToCart, cartDbWith, findProduct, hq2, hq12]
    · simp [cartItemsOf, cartDbWith]
  · intro hB
    by_cases hq2 : s < q2
    · simp [addToCart, cartDbWith, findProduct, hq2]
    · have hq12 : s < q1 + q2 := hB
      simp [addToCart, cartDbWith, findProduct, hq2, hq12]
  · intro hC1 hC2
    have hq1 : ¬ s < q1 := by omega
    have hq2 : ¬ s < q2 := by omega
    refine ⟨?_, ?_, ?_⟩
    · simp [addToCart, cartDbWith, findProduct, hq1]
    · simp [addToCart, cartDbWith, findProduct, hq2]
    · simp [cartItemsOf, cartDbWith]

/-- Witness for C8 with stock 5: adding 2 then 3 units uncustomized merges
into one line of 5; adding 3 more would exceed the stock and is rejected;
adding 2 customized then 3 uncustomized yields two distinct lines. -/
theorem addToCart_merge_and_customized_witness :
    ((2 : ℤ) + 3 ≤ 5 →
      addToCart (cartDbWith 100 10 5 1 7 20 []) 1 100 2 none
          = Except.ok (cartDbWith 100 10 5 1 7 21 [⟨20, 100, 2, none⟩],
              ⟨20, 100, 2, none⟩) ∧
        addToCart (cartDbWith 100 10 5 1 7 21 [⟨20, 100, 2, none⟩]) 1 100 3 none
          = Except.ok (cartDbWith 100 10 5 1 7 21 [⟨20, 100, 2 + 3, none⟩],
              ⟨20, 100, 2 + 3, none⟩) ∧
        cartItemsOf (cartDbWith 100 10 5 1 7 21 [⟨20, 100, 2 + 3, none⟩]) 1
          = some [⟨20, 100, 2 + 3, none⟩]) ∧
    ((5 : ℤ) < 2 + 3 →
      addToCart (cartDbWith 100 10 5 1 7 21 [⟨20, 100, 2, none⟩]) 1 100 3 none
        = Except.error (CartError.insufficientStock 5)) ∧
    ((2 : ℤ) ≤ 5 → (3 : ℤ) ≤ 5 →
      addToCart (cartDbWith 100 10 5 1 7 20 []) 1 100 2 (some designBlue)
          = Except.ok (cartDbWith 100 10 5 1 7 21 [⟨20, 100, 2, some designBlue⟩],
              ⟨20, 100, 2, some designBlue⟩) ∧
        addToCart (cartDbWith 100 10 5 1 7 21 [⟨20, 100, 2, some designBlue⟩]) 1 100 3 none
          = Except.ok (cartDbWith 100 10 5 1 7 22
                [⟨20, 100, 2, some designBlue⟩, ⟨21, 100, 3, none⟩],
              ⟨21, 100, 3, none⟩) ∧
        cartItemsOf (cartDbWith 100 10 5 1 7 22
            [⟨20, 100, 2, some designBlue⟩, ⟨21, 100, 3, none⟩]) 1
          = some [⟨20, 100, 2, some designBlue⟩, ⟨21, 100, 3, none⟩]) :=
  addToCart_merge_and_customized 100 1 7 20 10 5 2 3 designBlue (by decide) (by decide)

/-- C1: the claim states that stock is never negative at a transaction
boundary, in particular that a successful placeOrder never drives stock below
zero even when the cart holds two lines (one customized, one not) for the
same product.  The code validates each line separately against the same
pre-transaction snapshot (news.js lines 323-336) and then decrements
unconditionally (lines 372-378): with stock 5 and two lines of 3 units each
the order is accepted and the stock ends at -1, refuting the invariant. -/
theorem placeOrder_can_drive_stock_negative :
    isOkE (placeOrderRun C1db 1 (some addrA) none).2 = true ∧
    stockOf (placeOrderRun C1db 1 (some addrA) none).1.products 100 = some (-1) := by
  decide

/-- C7: the claim states that after every cart operation every line has a
strictly positive quantity, in particular that addToCart never creates a
line with quantity at most 0.  addToCart performs no positivity check on the
requested quantity (the only guard, cart controller line 216, is
stock < quantity, which a quantity of 0 passes when stock is 0 or more), so
requesting quantity 0 succeeds and creates a cart line with quantity 0. -/
theorem addToCart_zero_quantity_line :
    isOkE (addToCart C7db 1 100 0 none) = true ∧
    cartQuantities (addToCartRun C7db 1 100 0 none) 1 = some [0] := by
  decide

/-- C9: the claim states that of two concurrent placeOrder calls each
requesting the last unit of a stock 1 product exactly one succeeds, the
other fails with InsufficientStock, and the final stock is 0.  Because the
stock validation of placeOrder runs outside prisma.$transaction against a
pre-read snapshot (news.js lines 309-336) and the decrement inside the
transaction is unconditional (lines 372-378), the schedule in which both
validations precede both commits lets both requests succeed and leaves the
stock at -1, refuting the claim. -/
theorem placeOrder_race_both_succeed :
    isOkE (placeOrderRace C9db 1 2 addrA addrB).2.1 = true ∧
    isOkE (placeOrderRace C9db 1 2 addrA addrB).2.2 = true ∧
    stockOf (placeOrderRace C9db 1 2 addrA addrB).1.products 100 = some (-1) := by
  decide

/-- C6 counterexample: the claim states that cancelOrder still succeeds when
a line references a product that no longer exists, skipping that increment
and setting the status to CANCELLED.  On the store C6db the update of the
missing product 999 throws inside the transaction, so the whole request
fails with an internal error, the order stays PENDING, and no stock is
restored, not even for the existing product 100 — the cancellation does not
proceed. -/
theorem cancelOrder_missing_product_aborts_cx :
    cancelOrderRun C6db 1 false 50 = (C6db, Except.error CancelError.internalError) ∧
    statusOf C6db 50 = some OrderStatus.PENDING ∧
    stockOf C6db.products 100 = some 2 := by
  decide

end Social
